import Mathlib

/-
Verification of the biomass screw conveyor design calculator
(src/screw_rotate.py) against its natural-language specification.

The computational surface of the program is a handful of pure functions:
an input normalizer producing a volumetric feed rate (cfh), and a design
calculator producing screw geometry, a material recommendation, and a
power requirement.  We embed those functions shallowly: exact rational
arithmetic (ℚ) models the Python float arithmetic for the algebraic
parts, and ℝ with Real.sin models the trigonometric power formula.
Python's round(x, 2) is modelled by rounding x*100 to the nearest
integer and dividing by 100.
-/

namespace ScrewRotate

/-- Rounding to two decimal places, modelling Python round(x, 2). -/
def round2 {α : Type} [LinearOrderedField α] [FloorRing α] (x : α) : α :=
  ((round (x * 100) : ℤ) : α) / 100

/-- Constant GRAVITY = 32.2 from the source. -/
noncomputable def GRAVITY : ℝ := 32.2

/-- Constant DRIVE_EFFICIENCY = 0.88 from the source. -/
noncomputable def DRIVE_EFFICIENCY : ℝ := 0.88

/-- Degrees to radians, modelling math.radians. -/
noncomputable def radians (x : ℝ) : ℝ := x * Real.pi / 180

/-- Input normalizer, line 21 of the source:
feed_rate_cfh = (feed_rate_kgph / bulk_density) * 35.3147. -/
def feed_rate_cfh (feed_rate_kgph bulk_density : ℚ) : ℚ :=
  (feed_rate_kgph / bulk_density) * 35.3147

/-- Screw diameter selection, lines 24-28 of the source. -/
def calculate_screw_diameter (cfh : ℚ) : ℕ :=
  if cfh < 1000 then 4
  else if cfh < 2000 then 6
  else if cfh < 4000 then 9
  else 12

/-- Pitch, line 30 of the source: equal to the screw diameter. -/
def calculate_pitch (d : ℕ) : ℕ := d

/-- Shaft diameter, line 31 of the source: round(d * 0.3, 2). -/
def calculate_shaft_diameter (d : ℚ) : ℚ := round2 (d * 0.3)

/-- Flight thickness, line 32 of the source: 0.25 if d <= 6 else 0.375. -/
def calculate_thickness (d : ℚ) : ℚ := if d ≤ 6 then 0.25 else 0.375

/-- Power requirement, lines 34-39 of the source.  The bd argument is the
value the caller passes (the caller at line 56 passes bulk_density / 62.4);
the d argument is accepted but unused, exactly as in the source. -/
noncomputable def calculate_power (cfh bd angle d : ℝ) : ℝ :=
  let MHP := (cfh * bd * GRAVITY * Real.sin (radians angle)) / (33000 * 60)
  let FHP := 0.5
  let fi := 1 + (angle / 90)
  let TSHP := ((FHP + MHP) * fi) / DRIVE_EFFICIENCY
  round2 TSHP

/-- Auxiliary for substring containment: needle is a prefix of hay. -/
def beginsWith : List Char → List Char → Bool
  | [], _ => true
  | _ :: _, [] => false
  | a :: as, b :: bs => a == b && beginsWith as bs

/-- Auxiliary for substring containment: needle occurs somewhere in hay. -/
def containsAt (n : List Char) : List Char → Bool
  | [] => beginsWith n []
  | c :: cs => beginsWith n (c :: cs) || containsAt n cs

/-- Python substring containment, the expression needle in hay. -/
def strIn (needle hay : String) : Bool :=
  containsAt needle.data hay.data

/-- Python str.lower(), modelled character-wise (ASCII). -/
def lowerStr (s : String) : String :=
  ⟨s.data.map Char.toLower⟩

/-- Material recommendation, lines 41-47 of the source.  The caller at
line 55 passes the lowercased biomass label. -/
def recommend_material (biomass : String) (mc : ℚ) : String :=
  if strIn "wood" biomass || strIn "husk" biomass then "Stainless Steel 304"
  else if mc > 25 then "316 SS or Coated Carbon Steel"
  else "Mild Steel"

/-- The DesignOutput record described by the spec, assembled by the
design-calculation block at lines 51-56 of the source. -/
structure DesignOutput where
  screw_diameter_in : ℕ
  pitch_in : ℕ
  shaft_diameter_in : ℚ
  flight_thickness_in : ℚ
  material : String
  power_hp : ℝ

/-- The composed design calculation, lines 51-56 of the source:
Ds = calculate_screw_diameter(feed_rate_cfh); pitch, shaft diameter and
thickness from Ds; material from the lowercased biomass label and the
moisture content; power from cfh, bulk_density / 62.4, the incline angle
and Ds. -/
noncomputable def computeDesign (biomass_type : String)
    (feed_rate_kgph bulk_density moisture_content incline_angle_deg : ℚ) :
    DesignOutput :=
  let cfh := feed_rate_cfh feed_rate_kgph bulk_density
  let Ds := calculate_screw_diameter cfh
  { screw_diameter_in := Ds
    pitch_in := calculate_pitch Ds
    shaft_diameter_in := calculate_shaft_diameter (Ds : ℚ)
    flight_thickness_in := calculate_thickness (Ds : ℚ)
    material := recommend_material (lowerStr biomass_type) moisture_content
    power_hp := calculate_power ((cfh : ℚ) : ℝ) ((bulk_density : ℝ) / 62.4)
      ((incline_angle_deg : ℚ) : ℝ) ((Ds : ℕ) : ℝ) }

/-- Screw diameter step function exactly as the spec words it. -/
def screw_diameter_spec (cfh : ℚ) : ℕ :=
  if cfh < 1000 then 4
  else if cfh < 2000 then 6
  else if cfh < 4000 then 9
  else 12

/-- Shaft diameter exactly as the spec words it: round(0.3 * d, 2). -/
def shaft_diameter_spec (d : ℚ) : ℚ := round2 (0.3 * d)

/-- Material recommendation exactly as the spec words it, over the
lowercased label. -/
def material_spec (biomass : String) (mc : ℚ) : String :=
  if strIn "wood" (lowerStr biomass) || strIn "husk" (lowerStr biomass) then
    "Stainless Steel 304"
  else if mc > 25 then "316 SS or Coated Carbon Steel"
  else "Mild Steel"

/-- Power requirement exactly as the spec words it, in terms of the raw
bulk density (specific gravity bd / 62.4 formed inside). -/
noncomputable def power_spec (cfh bd angle : ℝ) : ℝ :=
  round2 (((0.5 + (cfh * (bd / 62.4) * 32.2 * Real.sin (angle * Real.pi / 180))
    / (33000 * 60)) * (1 + angle / 90)) / 0.88)

/-- C2: the screw diameter selection agrees with the spec step function
everywhere, and the boundary at 1000 is exclusive: 999.999 maps to 4 and
1000 maps to 6. -/
theorem screw_diameter_step_function :
    (∀ cfh : ℚ, calculate_screw_diameter cfh = screw_diameter_spec cfh) ∧
    calculate_screw_diameter (999999 / 1000) = 4 ∧
    calculate_screw_diameter 1000 = 6 ∧
    calculate_screw_diameter 2000 = 9 ∧
    calculate_screw_diameter 4000 = 12 := by
  refine ⟨fun cfh => rfl, ?_, ?_, ?_, ?_⟩ <;>
    norm_num [calculate_screw_diameter]

/-- C5: over the documented domain the input normalizer returns
(feed_rate / bulk_density) * 35.3147; the division is genuinely
well-defined since the bulk density is nonzero, as witnessed by the
multiplicative characterization. -/
theorem feed_rate_cfh_total (fr bd : ℚ)
    (hfr1 : 1 ≤ fr) (hfr2 : fr ≤ 500) (hbd1 : 50 ≤ bd) (hbd2 : bd ≤ 1000) :
    feed_rate_cfh fr bd = (fr / bd) * (353147 / 10000) ∧
    bd ≠ 0 ∧
    feed_rate_cfh fr bd * bd = fr * (353147 / 10000) := by
  have hbd0 : bd ≠ 0 := by positivity
  refine ⟨by norm_num [feed_rate_cfh], hbd0, ?_⟩
  field_simp [feed_rate_cfh]
  ring

/-- Witness for C5 at feed rate 100, bulk density 180. -/
theorem feed_rate_cfh_total_witness :
    (1 : ℚ) ≤ 100 ∧ (100 : ℚ) ≤ 500 ∧ (50 : ℚ) ≤ 180 ∧ (180 : ℚ) ≤ 1000 ∧
    (feed_rate_cfh 100 180 = (100 / 180) * (353147 / 10000) ∧
      (180 : ℚ) ≠ 0 ∧
      feed_rate_cfh 100 180 * 180 = 100 * (353147 / 10000)) :=
  ⟨by norm_num, by norm_num, by norm_num, by norm_num,
    feed_rate_cfh_total 100 180 (by norm_num) (by norm_num) (by norm_num)
      (by norm_num)⟩

/-- C6: the shaft diameter is round(0.3 * d, 2) for every screw diameter,
and the four standard diameters map to 1.2, 1.8, 2.7 and 3.6. -/
theorem shaft_diameter_correct :
    (∀ d : ℚ, calculate_shaft_diameter d = shaft_diameter_spec d) ∧
    calculate_shaft_diameter 4 = 1.2 ∧
    calculate_shaft_diameter 6 = 1.8 ∧
    calculate_shaft_diameter 9 = 2.7 ∧
    calculate_shaft_diameter 12 = 3.6 := by
  refine ⟨fun d => by rw [calculate_shaft_diameter, shaft_diameter_spec, mul_comm],
    ?_, ?_, ?_, ?_⟩ <;>
    norm_num [calculate_shaft_diameter, round2, round_eq]

/-- C7: the flight thickness is 0.25 for screw diameters at most 6 and
0.375 above, hence 0.25 at 4 and 6, and 0.375 at 9 and 12. -/
theorem flight_thickness_correct :
    (∀ d : ℚ, calculate_thickness d = if d ≤ 6 then (0.25 : ℚ) else 0.375) ∧
    calculate_thickness 4 = 0.25 ∧
    calculate_thickness 6 = 0.25 ∧
    calculate_thickness 9 = 0.375 ∧
    calculate_thickness 12 = 0.375 := by
  refine ⟨fun d => rfl, ?_, ?_, ?_, ?_⟩ <;> norm_num [calculate_thickness]

/-- C10: calculate_power ignores its screw-diameter argument: for any two
values of d the result is the same. -/
theorem calculate_power_ignores_diameter (cfh bd angle d d' : ℝ) :
    calculate_power cfh bd angle d = calculate_power cfh bd angle d' := rfl

/-- C3: the composed material recommendation (the source lowercases the
label before the substring checks) agrees with the spec rule list
everywhere, and the three quoted instances hold. -/
theorem material_recommendation_correct :
    (∀ (b : String) (mc : ℚ),
      recommend_material (lowerStr b) mc = material_spec b mc) ∧
    recommend_material (lowerStr "rice husk") 15 = "Stainless Steel 304" ∧
    recommend_material (lowerStr "corn stover") 30 =
      "316 SS or Coated Carbon Steel" ∧
    recommend_material (lowerStr "corn stover") 10 = "Mild Steel" := by
  refine ⟨fun b mc => rfl, ?_, ?_, ?_⟩ <;> decide

/-- C4: composing calculate_power with the specific gravity bd / 62.4
formed by the caller (line 56 of the source) gives exactly the spec
formula, for every cfh, bulk density, angle and diameter. -/
theorem power_matches_spec_formula (cfh bd angle d : ℝ) :
    calculate_power cfh (bd / 62.4) angle d = power_spec cfh bd angle := rfl

/-- Helper: the screw diameter is always one of 4, 6, 9, 12. -/
lemma calculate_screw_diameter_mem (cfh : ℚ) :
    calculate_screw_diameter cfh = 4 ∨ calculate_screw_diameter cfh = 6 ∨
    calculate_screw_diameter cfh = 9 ∨ calculate_screw_diameter cfh = 12 := by
  unfold calculate_screw_diameter
  split_ifs <;> simp

/-- C8: over the documented input domain, the design output has a screw
diameter in {4, 6, 9, 12}, pitch equal to the screw diameter, and flight
thickness in {0.25, 0.375}. -/
theorem design_output_invariants (b : String) (fr bd mc angle : ℚ)
    (hfr1 : 1 ≤ fr) (hfr2 : fr ≤ 500) (hbd1 : 50 ≤ bd) (hbd2 : bd ≤ 1000)
    (hmc1 : 0 ≤ mc) (hmc2 : mc ≤ 100) (ha1 : 0 ≤ angle) (ha2 : angle ≤ 45) :
    ((computeDesign b fr bd mc angle).screw_diameter_in = 4 ∨
      (computeDesign b fr bd mc angle).screw_diameter_in = 6 ∨
      (computeDesign b fr bd mc angle).screw_diameter_in = 9 ∨
      (computeDesign b fr bd mc angle).screw_diameter_in = 12) ∧
    (computeDesign b fr bd mc angle).pitch_in =
      (computeDesign b fr bd mc angle).screw_diameter_in ∧
    ((computeDesign b fr bd mc angle).flight_thickness_in = 0.25 ∨
      (computeDesign b fr bd mc angle).flight_thickness_in = 0.375) := by
  rcases calculate_screw_diameter_mem (feed_rate_cfh fr bd) with h | h | h | h <;>
    simp [computeDesign, calculate_pitch, calculate_thickness, h] <;> norm_num

/-- Witness for C8 at the example input. -/
theorem design_output_invariants_witness :
    ((1 : ℚ) ≤ 100 ∧ (100 : ℚ) ≤ 500 ∧ (50 : ℚ) ≤ 180 ∧ (180 : ℚ) ≤ 1000 ∧
      (0 : ℚ) ≤ 15 ∧ (15 : ℚ) ≤ 100 ∧ (0 : ℚ) ≤ 20 ∧ (20 : ℚ) ≤ 45) ∧
    (((computeDesign "rice husk" 100 180 15 20).screw_diameter_in = 4 ∨
      (computeDesign "rice husk" 100 180 15 20).screw_diameter_in = 6 ∨
      (computeDesign "rice husk" 100 180 15 20).screw_diameter_in = 9 ∨
      (computeDesign "rice husk" 100 180 15 20).screw_diameter_in = 12) ∧
    (computeDesign "rice husk" 100 180 15 20).pitch_in =
      (computeDesign "rice husk" 100 180 15 20).screw_diameter_in ∧
    ((computeDesign "rice husk" 100 180 15 20).flight_thickness_in = 0.25 ∨
      (computeDesign "rice husk" 100 180 15 20).flight_thickness_in = 0.375)) :=
  ⟨⟨by norm_num, by norm_num, by norm_num, by norm_num, by norm_num,
      by norm_num, by norm_num, by norm_num⟩,
    design_output_invariants "rice husk" 100 180 15 20 (by norm_num)
      (by norm_num) (by norm_num) (by norm_num) (by norm_num) (by norm_num)
      (by norm_num) (by norm_num)⟩

/-- C9: the design computation is deterministic: identical inputs give
identical outputs in every field. -/
theorem computeDesign_deterministic (b b' : String)
    (fr fr' bd bd' mc mc' angle angle' : ℚ)
    (hb : b = b') (hfr : fr = fr') (hbd : bd = bd') (hmc : mc = mc')
    (ha : angle = angle') :
    computeDesign b fr bd mc angle = computeDesign b' fr' bd' mc' angle' := by
  subst hb hfr hbd hmc ha
  rfl

/-- Witness for C9 at the example input. -/
theorem computeDesign_deterministic_witness :
    ("rice husk" = "rice husk" ∧ (100 : ℚ) = 100 ∧ (180 : ℚ) = 180 ∧
      (15 : ℚ) = 15 ∧ (20 : ℚ) = 20) ∧
    computeDesign "rice husk" 100 180 15 20 =
      computeDesign "rice husk" 100 180 15 20 :=
  ⟨⟨rfl, rfl, rfl, rfl, rfl⟩,
    computeDesign_deterministic "rice husk" "rice husk" 100 100 180 180
      15 15 20 20 rfl rfl rfl rfl rfl⟩

/-- Helper: the power formula evaluated at the example input.  The exact
rational cfh is 353147/18000 ≈ 19.619; the total shaft horsepower before
rounding lies strictly between 0.6944 and 0.6949, so rounding to two
decimals gives 0.69. -/
lemma calculate_power_example :
    calculate_power ((353147 : ℝ) / 18000) (180 / 62.4) 20 4 = 0.69 := by
  have hπpos := Real.pi_pos
  have h1 : (0 : ℝ) < 20 * Real.pi / 180 := by positivity
  have h2 : 20 * Real.pi / 180 < Real.pi := by linarith
  have hs0 : 0 < Real.sin (20 * Real.pi / 180) :=
    Real.sin_pos_of_pos_of_lt_pi h1 h2
  have hslt : Real.sin (20 * Real.pi / 180) < 20 * Real.pi / 180 :=
    Real.sin_lt h1
  have hπ : Real.pi < 3.15 := Real.pi_lt_d2
  have hs35 : Real.sin (20 * Real.pi / 180) < 0.35 := by
    have h : 20 * Real.pi / 180 < 0.35 := by norm_num; linarith
    linarith
  simp only [calculate_power, radians, GRAVITY, DRIVE_EFFICIENCY, round2]
  have hround :
      round ((((0.5 : ℝ) + (353147 / 18000 * (180 / 62.4) * 32.2 *
          Real.sin (20 * Real.pi / 180)) / (33000 * 60)) * (1 + 20 / 90)) /
          0.88 * 100) = 69 := by
    rw [round_eq]
    apply Int.floor_eq_iff.mpr
    have hT : (((0.5 : ℝ) + (353147 / 18000 * (180 / 62.4) * 32.2 *
        Real.sin (20 * Real.pi / 180)) / (33000 * 60)) * (1 + 20 / 90)) /
        0.88 * 100 + 1 / 2
        = 1259 / 18 + 56856667 / 444787200 * Real.sin (20 * Real.pi / 180) := by
      norm_num
      ring
    constructor
    · push_cast
      rw [hT]
      linarith [hs0, hs35]
    · push_cast
      rw [hT]
      linarith [hs0, hs35]
  rw [hround]
  norm_num

/-- Helper: the power field of the example design equals 0.69. -/
lemma power_hp_example :
    (computeDesign "rice husk" 100 180 15 20).power_hp = 0.69 := by
  have hd : calculate_screw_diameter (feed_rate_cfh 100 180) = 4 := by
    norm_num [feed_rate_cfh, calculate_screw_diameter]
  have hc : ((feed_rate_cfh 100 180 : ℚ) : ℝ) = 353147 / 18000 := by
    norm_num [feed_rate_cfh]
  simp only [computeDesign, hd]
  rw [hc]
  push_cast
  exact calculate_power_example

/-- C1 counterexample: at the example input the power requirement the
code computes is not 0.70. -/
theorem example_power_not_070 :
    (computeDesign "rice husk" 100 180 15 20).power_hp ≠ 0.70 := by
  rw [power_hp_example]
  norm_num

/-- C1 amended: at the example input the composed calculation returns
screw diameter 4, pitch 4, shaft diameter 1.2, flight thickness 0.25,
material Stainless Steel 304, and power 0.69 after rounding to two
decimal places. -/
theorem example_design_correct :
    (computeDesign "rice husk" 100 180 15 20).screw_diameter_in = 4 ∧
    (computeDesign "rice husk" 100 180 15 20).pitch_in = 4 ∧
    (computeDesign "rice husk" 100 180 15 20).shaft_diameter_in = 1.2 ∧
    (computeDesign "rice husk" 100 180 15 20).flight_thickness_in = 0.25 ∧
    (computeDesign "rice husk" 100 180 15 20).material =
      "Stainless Steel 304" ∧
    (computeDesign "rice husk" 100 180 15 20).power_hp = 0.69 := by
  have hd : calculate_screw_diameter (feed_rate_cfh 100 180) = 4 := by
    norm_num [feed_rate_cfh, calculate_screw_diameter]
  refine ⟨?_, ?_, ?_, ?_, ?_, power_hp_example⟩ <;>
    simp only [computeDesign, hd, calculate_pitch] <;>
    norm_num [calculate_shaft_diameter, calculate_thickness, round2, round_eq]
  decide

end ScrewRotate
